import Mathlib

/-!
Verification of the frame-acquisition pipeline of the `recognition`
repository.  The Python sources (`camera_fetcher.py`, `vlc_fetcher.py`,
`main.py`, `db.py`, `config_loader.py`) are shallowly embedded below:
network and decoder behaviour is supplied through explicit oracle
parameters, machine state through explicit state passing, and every
fallible operation returns an `Option`/`Except` value.
-/

namespace ConfigLoader

/-- Port normalisation of `config_loader.load_config` (lines 52-60):
`cam["port"] = int(cam.get("port", default_port))`, falling back to the
default on `TypeError`/`ValueError`, then clamped by
`max(1, min(65535, port))`.  The raw JSON field is modelled as
`Option (Option ℤ)`: `none` = key missing, `some none` = present but not
convertible by `int(...)`, `some (some n)` = converts to `n`. -/
def normalizePort (https : Bool) (field : Option (Option ℤ)) : ℤ :=
  let dflt : ℤ := if https then 443 else 80
  let p : ℤ :=
    match field with
    | none => dflt
    | some none => dflt
    | some (some n) => n
  max 1 (min 65535 p)

/-- The camera-list migration loop of `load_config`: every camera's port
field is normalised. -/
def loadConfigPorts (https : Bool) (fields : List (Option (Option ℤ))) : List ℤ :=
  fields.map (normalizePort https)

end ConfigLoader

namespace Poller

/-- Remaining-interval sleep of `main.camera_worker` (lines 151-153):
`elapsed = time.time() - t0; left = max(0.0, interval - elapsed)`. -/
def sleepLeft (interval elapsed : ℚ) : ℚ := max 0 (interval - elapsed)

/-- Start time of the n-th tick of one camera's worker loop: the loop is a
single sequential thread, so tick `n+1` starts only after tick `n`'s body
(duration `d n`) and the residual sleep have both completed. -/
def tickStart (interval : ℚ) (d : ℕ → ℚ) : ℕ → ℚ
  | 0 => 0
  | n + 1 => tickStart interval d n + d n + sleepLeft interval (d n)

end Poller

/-- C10: every port produced by `load_config` lies in `[1, 65535]`; a
missing or unconvertible port becomes 443 when `https` is set and 80
otherwise; an out-of-range convertible value is clamped into the range and
an in-range value is kept unchanged. -/
theorem load_config_port_normalization (https : Bool)
    (fields : List (Option (Option ℤ))) :
    (∀ p ∈ ConfigLoader.loadConfigPorts https fields, 1 ≤ p ∧ p ≤ 65535) ∧
    (∀ field ∈ fields, (field = none ∨ field = some none) →
      ConfigLoader.normalizePort https field = (if https then 443 else 80)) ∧
    (∀ n : ℤ, n < 1 → ConfigLoader.normalizePort https (some (some n)) = 1) ∧
    (∀ n : ℤ, 65535 < n → ConfigLoader.normalizePort https (some (some n)) = 65535) ∧
    (∀ n : ℤ, 1 ≤ n → n ≤ 65535 →
      ConfigLoader.normalizePort https (some (some n)) = n) := by
  refine ⟨?_, ?_, ?_, ?_, ?_⟩
  · intro p hp
    simp only [ConfigLoader.loadConfigPorts, List.mem_map] at hp
    obtain ⟨field, _, rfl⟩ := hp
    unfold ConfigLoader.normalizePort
    constructor
    · exact le_max_left _ _
    · exact max_le (by norm_num) (min_le_left _ _)
  · intro field _ h
    rcases h with rfl | rfl <;>
      · unfold ConfigLoader.normalizePort
        rcases https <;> simp
  · intro n hn
    unfold ConfigLoader.normalizePort
    simp only []
    omega
  · intro n hn
    unfold ConfigLoader.normalizePort
    simp only []
    omega
  · intro n h1 h2
    unfold ConfigLoader.normalizePort
    simp only []
    omega

theorem load_config_port_normalization_witness :
    ((∀ p ∈ ConfigLoader.loadConfigPorts true [none, some none, some (some 70000), some (some 0), some (some 8080)], 1 ≤ p ∧ p ≤ 65535) ∧
    (∀ field ∈ ([none, some none, some (some 70000), some (some 0), some (some 8080)] : List (Option (Option ℤ))), (field = none ∨ field = some none) →
      ConfigLoader.normalizePort true field = (if (true : Bool) then 443 else 80)) ∧
    (∀ n : ℤ, n < 1 → ConfigLoader.normalizePort true (some (some n)) = 1) ∧
    (∀ n : ℤ, 65535 < n → ConfigLoader.normalizePort true (some (some n)) = 65535) ∧
    (∀ n : ℤ, 1 ≤ n → n ≤ 65535 →
      ConfigLoader.normalizePort true (some (some n)) = n)) ∧
    ConfigLoader.loadConfigPorts true [none, some none, some (some 70000), some (some 0), some (some 8080)] = [443, 443, 65535, 1, 8080] :=
  ⟨load_config_port_normalization true _, by decide⟩

/-- C5: the worker sleeps exactly `max(0, I − T)` after a tick of duration
`T` with interval `I` — in particular `I − T` when `T < I` and `0` when
`T ≥ I` — and, the loop being sequential, tick `n` ends (at
`tickStart n + d n`) no later than tick `n+1` begins: ticks of one camera
never overlap. -/
theorem camera_worker_cadence (I T : ℚ) (d : ℕ → ℚ) :
    (T < I → Poller.sleepLeft I T = I - T) ∧
    (I ≤ T → Poller.sleepLeft I T = 0) ∧
    (∀ n : ℕ, Poller.tickStart I d n + d n ≤ Poller.tickStart I d (n + 1)) := by
  refine ⟨?_, ?_, ?_⟩
  · intro h
    unfold Poller.sleepLeft
    rw [max_eq_right]
    linarith
  · intro h
    unfold Poller.sleepLeft
    rw [max_eq_left]
    linarith
  · intro n
    show Poller.tickStart I d n + d n ≤
      Poller.tickStart I d n + d n + Poller.sleepLeft I (d n)
    have h0 : 0 ≤ Poller.sleepLeft I (d n) := le_max_left _ _
    linarith

theorem camera_worker_cadence_witness :
    ((3 : ℚ) < 10 ∧ Poller.sleepLeft 10 3 = 10 - 3) ∧
    ((10 : ℚ) ≤ 12 ∧ Poller.sleepLeft 10 12 = 0) ∧
    Poller.tickStart 10 (fun _ => 3) 0 + 3 ≤ Poller.tickStart 10 (fun _ => 3) 1 :=
  ⟨⟨by norm_num, (camera_worker_cadence 10 3 (fun _ => 3)).1 (by norm_num)⟩,
   ⟨by norm_num, (camera_worker_cadence 10 12 (fun _ => 3)).2.1 (by norm_num)⟩,
   (camera_worker_cadence 10 3 (fun _ => 3)).2.2 0⟩

namespace Db

/-- A row of the `sightings` table created by `db.db_init`:
`id BIGSERIAL PRIMARY KEY, name TEXT, camera TEXT, ts TEXT,
image_bytes BYTEA`. -/
structure SRow where
  id : ℕ
  name : String
  camera : String
  ts : String
  image : List ℕ
deriving DecidableEq

/-- The multiset of identity names currently in the table (in row order). -/
def namesOf (t : List SRow) : List String := t.map SRow.name

/-- Next `BIGSERIAL` id. -/
def nextId (t : List SRow) : ℕ := (t.map SRow.id).foldr max 0 + 1

/-- `db.db_init` (lines 42-63): creates the tables and the unique index
`ux_sightings_name ON sightings(name)`.  On a pre-existing table whose
names are not distinct, `CREATE UNIQUE INDEX` raises; otherwise the table
is left as is with the uniqueness constraint in force. -/
def db_init (t : List SRow) : Except String (List SRow) :=
  if (namesOf t).Nodup then .ok t
  else .error "could not create unique index ux_sightings_name"

/-- `db.db_upsert_sighting_bytes` (lines 201-224): `INSERT ... ON CONFLICT
(name) DO UPDATE SET camera, ts, image_bytes`.  A conflicting name updates
the existing row in place; otherwise a fresh row is appended. -/
def db_upsert_sighting_bytes (t : List SRow) (name camera ts : String)
    (image : List ℕ) : List SRow :=
  if name ∈ namesOf t then
    t.map (fun r =>
      if r.name = name then
        { r with camera := camera, ts := ts, image := image }
      else r)
  else t ++ [⟨nextId t, name, camera, ts, image⟩]

/-- `db.db_insert_sighting_bytes` (lines 94-119): plain `INSERT` into
`sightings`; the unique index makes a duplicate name raise
`UniqueViolation`, and since `conn.commit()` is then never reached the
transaction leaves the table unchanged. -/
def db_insert_sighting_bytes (t : List SRow) (name camera ts : String)
    (image : List ℕ) : Except String (List SRow) :=
  if name ∈ namesOf t then
    .error "duplicate key value violates unique constraint ux_sightings_name"
  else .ok (t ++ [⟨nextId t, name, camera, ts, image⟩])

/-- `db.db_upsert_sightings_bytes_bulk` (lines 227-253): one
`execute_values` upsert over all rows.  PostgreSQL rejects a batch in
which two rows target the same `name` ("cannot affect row a second
time"); a batch of distinct names behaves as the row-by-row upsert. -/
def db_upsert_sightings_bytes_bulk (t : List SRow)
    (rows : List (String × String × String × List ℕ)) :
    Except String (List SRow) :=
  if (rows.map (fun r => r.1)).Nodup then
    .ok (rows.foldl
      (fun acc r => db_upsert_sighting_bytes acc r.1 r.2.1 r.2.2.1 r.2.2.2) t)
  else .error "ON CONFLICT DO UPDATE command cannot affect row a second time"

theorem namesOf_replace (t : List SRow) (n c ts : String) (img : List ℕ) :
    namesOf (t.map (fun r =>
      if r.name = n then { r with camera := c, ts := ts, image := img }
      else r)) = namesOf t := by
  induction t with
  | nil => rfl
  | cons r rest ih =>
      simp only [namesOf, List.map_cons] at ih ⊢
      have hh : (if r.name = n then
          { r with camera := c, ts := ts, image := img } else r).name = r.name := by
        split <;> rfl
      rw [ih, hh]

theorem namesOf_upsert (t : List SRow) (n c ts : String) (img : List ℕ) :
    namesOf (db_upsert_sighting_bytes t n c ts img) =
      if n ∈ namesOf t then namesOf t else namesOf t ++ [n] := by
  unfold db_upsert_sighting_bytes
  split
  · exact namesOf_replace t n c ts img
  · simp [namesOf]

theorem nodup_upsert (t : List SRow) (n c ts : String) (img : List ℕ)
    (h : (namesOf t).Nodup) :
    (namesOf (db_upsert_sighting_bytes t n c ts img)).Nodup := by
  rw [namesOf_upsert]
  split
  · exact h
  · rw [List.nodup_append]
    refine ⟨h, List.nodup_singleton n, ?_⟩
    intro a ha hb
    simp only [List.mem_singleton] at hb
    subst hb
    exact absurd ha (by assumption)

theorem nodup_bulk_fold (rows : List (String × String × String × List ℕ)) :
    ∀ t : List SRow, (namesOf t).Nodup →
    (namesOf (rows.foldl
      (fun acc r => db_upsert_sighting_bytes acc r.1 r.2.1 r.2.2.1 r.2.2.2)
      t)).Nodup := by
  induction rows with
  | nil => intro t h; exact h
  | cons r rest ih =>
      intro t h
      exact ih _ (nodup_upsert t r.1 r.2.1 r.2.2.1 r.2.2.2 h)

end Db

/-- C9: `db_init` only succeeds with a duplicate-free table; row-by-row
upsert preserves the at-most-one-row-per-name invariant (a conflicting
name replaces the existing row, leaving the set of names unchanged);
bulk upsert preserves it on every successful run; a plain insert of a
conflicting name fails, and a successful plain insert preserves the
invariant. -/
theorem sightings_unique_name_invariant (t : List Db.SRow)
    (n c ts : String) (img : List ℕ)
    (rows : List (String × String × String × List ℕ))
    (h : (Db.namesOf t).Nodup) :
    (∀ t₀ t' : List Db.SRow, Db.db_init t₀ = .ok t' → (Db.namesOf t').Nodup) ∧
    (Db.namesOf (Db.db_upsert_sighting_bytes t n c ts img)).Nodup ∧
    (n ∈ Db.namesOf t →
      Db.namesOf (Db.db_upsert_sighting_bytes t n c ts img) = Db.namesOf t) ∧
    (∀ t', Db.db_upsert_sightings_bytes_bulk t rows = .ok t' →
      (Db.namesOf t').Nodup) ∧
    (n ∈ Db.namesOf t →
      ∃ e, Db.db_insert_sighting_bytes t n c ts img = .error e) ∧
    (∀ t', Db.db_insert_sighting_bytes t n c ts img = .ok t' →
      (Db.namesOf t').Nodup) := by
  refine ⟨?_, ?_, ?_, ?_, ?_, ?_⟩
  · intro t₀ t' hinit
    unfold Db.db_init at hinit
    split at hinit
    · cases hinit
      assumption
    · cases hinit
  · exact Db.nodup_upsert t n c ts img h
  · intro hmem
    rw [Db.namesOf_upsert, if_pos hmem]
  · intro t' hbulk
    unfold Db.db_upsert_sightings_bytes_bulk at hbulk
    split at hbulk
    · cases hbulk
      exact Db.nodup_bulk_fold rows t h
    · cases hbulk
  · intro hmem
    unfold Db.db_insert_sighting_bytes
    rw [if_pos hmem]
    exact ⟨_, rfl⟩
  · intro t' hins
    unfold Db.db_insert_sighting_bytes at hins
    split at hins
    · cases hins
    · cases hins
      rename_i hnot
      simp only [Db.namesOf, List.map_append, List.map_cons, List.map_nil]
      rw [List.nodup_append]
      refine ⟨h, List.nodup_singleton n, ?_⟩
      intro a ha hb
      simp only [List.mem_singleton] at hb
      subst hb
      exact hnot ha

theorem sightings_unique_name_invariant_witness :
    (Db.namesOf [⟨1, "alice", "cam1", "t1", [0]⟩]).Nodup ∧
    ((∀ t₀ t' : List Db.SRow, Db.db_init t₀ = .ok t' → (Db.namesOf t').Nodup) ∧
     (Db.namesOf (Db.db_upsert_sighting_bytes [⟨1, "alice", "cam1", "t1", [0]⟩]
        "alice" "cam2" "t2" [1])).Nodup ∧
     ("alice" ∈ Db.namesOf [⟨1, "alice", "cam1", "t1", [0]⟩] →
       Db.namesOf (Db.db_upsert_sighting_bytes [⟨1, "alice", "cam1", "t1", [0]⟩]
          "alice" "cam2" "t2" [1]) =
         Db.namesOf [⟨1, "alice", "cam1", "t1", [0]⟩]) ∧
     (∀ t', Db.db_upsert_sightings_bytes_bulk [⟨1, "alice", "cam1", "t1", [0]⟩]
        [("bob", "cam2", "t2", [2])] = .ok t' → (Db.namesOf t').Nodup) ∧
     ("alice" ∈ Db.namesOf [⟨1, "alice", "cam1", "t1", [0]⟩] →
       ∃ e, Db.db_insert_sighting_bytes [⟨1, "alice", "cam1", "t1", [0]⟩]
          "alice" "cam2" "t2" [1] = .error e) ∧
     (∀ t', Db.db_insert_sighting_bytes [⟨1, "alice", "cam1", "t1", [0]⟩]
        "alice" "cam2" "t2" [1] = .ok t' → (Db.namesOf t').Nodup)) :=
  ⟨by decide,
   sightings_unique_name_invariant [⟨1, "alice", "cam1", "t1", [0]⟩]
     "alice" "cam2" "t2" [1] [("bob", "cam2", "t2", [2])] (by decide)⟩

namespace Writer

/-- One ingestion-queue event of `main.py`: the pollers enqueue
`("last_seen", (name, camera, ts))` or
`("sighting_upsert", (name, camera, ts, jpg_bytes))`. -/
inductive Ev
  | lastSeen (p : String × String × String)
  | sighting (p : String × String × String × List ℕ)
deriving DecidableEq

/-- One storage-handle operation performed by `main.db_writer`. -/
inductive Op
  | upsert (p : String × String × String × List ℕ)
  | flushBatch (rows : List (String × String × String))
  | closeConn
deriving DecidableEq

/-- `main.db_writer` (lines 156-200) once the shutdown signal is set: the
loop guard is `not stop_event.is_set() or not dbq.empty()`, so with the
signal raised it iterates exactly while the queue is non-empty, and
`dbq.get` then returns the head immediately.  Each iteration appends
`last_seen` payloads to `batch_last` or upserts a sighting right away,
then flushes the batch when it is non-empty and either has reached
`BATCH_SIZE = 50` or `FLUSH_EVERY = 1.0` seconds have passed.  Leaving
the loop performs the final flush of any leftover batch and finally
`conn.close()`.  `times` supplies the wall-clock value read at each
iteration (exhaustion defaults to the last flush instant). -/
def drainLoop : List Ev → List (String × String × String) → ℚ → List ℚ → List Op
  | [], batch, _, _ =>
      (if batch = [] then [] else [Op.flushBatch batch]) ++ [Op.closeConn]
  | e :: rest, batch, lastFlush, times =>
      let now := times.headD lastFlush
      match e with
      | Ev.lastSeen p =>
          let batch' := batch ++ [p]
          if 50 ≤ batch'.length ∨ 1 ≤ now - lastFlush then
            Op.flushBatch batch' :: drainLoop rest [] now times.tail
          else
            drainLoop rest batch' lastFlush times.tail
      | Ev.sighting p =>
          if batch ≠ [] ∧ (50 ≤ batch.length ∨ 1 ≤ now - lastFlush) then
            Op.upsert p :: Op.flushBatch batch :: drainLoop rest [] now times.tail
          else
            Op.upsert p :: drainLoop rest batch lastFlush times.tail

/-- The sighting payloads written (immediately) by a run of the writer. -/
def opsUpserts : List Op → List (String × String × String × List ℕ)
  | [] => []
  | Op.upsert p :: rest => p :: opsUpserts rest
  | Op.flushBatch _ :: rest => opsUpserts rest
  | Op.closeConn :: rest => opsUpserts rest

/-- The last-seen payloads written through batch flushes, in order. -/
def opsFlushed : List Op → List (String × String × String)
  | [] => []
  | Op.upsert _ :: rest => opsFlushed rest
  | Op.flushBatch rows :: rest => rows ++ opsFlushed rest
  | Op.closeConn :: rest => opsFlushed rest

/-- The sighting payloads of a queue, in arrival order. -/
def evSightings : List Ev → List (String × String × String × List ℕ)
  | [] => []
  | Ev.sighting p :: rest => p :: evSightings rest
  | Ev.lastSeen _ :: rest => evSightings rest

/-- The last-seen payloads of a queue, in arrival order. -/
def evLastSeens : List Ev → List (String × String × String)
  | [] => []
  | Ev.lastSeen p :: rest => p :: evLastSeens rest
  | Ev.sighting _ :: rest => evLastSeens rest

end Writer

theorem drainLoop_nil (batch : List (String × String × String)) (t0 : ℚ)
    (times : List ℚ) :
    Writer.drainLoop [] batch t0 times =
      (if batch = [] then [] else [Writer.Op.flushBatch batch]) ++
        [Writer.Op.closeConn] := rfl

theorem drainLoop_lastSeen (p : String × String × String)
    (rest : List Writer.Ev) (batch : List (String × String × String))
    (t0 : ℚ) (times : List ℚ) :
    Writer.drainLoop (Writer.Ev.lastSeen p :: rest) batch t0 times =
      (if 50 ≤ (batch ++ [p]).length ∨ 1 ≤ times.headD t0 - t0 then
        Writer.Op.flushBatch (batch ++ [p]) ::
          Writer.drainLoop rest [] (times.headD t0) times.tail
      else Writer.drainLoop rest (batch ++ [p]) t0 times.tail) := rfl

theorem drainLoop_sighting (p : String × String × String × List ℕ)
    (rest : List Writer.Ev) (batch : List (String × String × String))
    (t0 : ℚ) (times : List ℚ) :
    Writer.drainLoop (Writer.Ev.sighting p :: rest) batch t0 times =
      (if batch ≠ [] ∧ (50 ≤ batch.length ∨ 1 ≤ times.headD t0 - t0) then
        Writer.Op.upsert p :: Writer.Op.flushBatch batch ::
          Writer.drainLoop rest [] (times.headD t0) times.tail
      else Writer.Op.upsert p ::
          Writer.drainLoop rest batch t0 times.tail) := rfl

/-- C6: with the shutdown signal raised and `q` still enqueued (plus a
pending `batch` of last-seen rows), the writer's remaining run writes
every sighting event of the queue, flushes every pending and queued
last-seen payload, and closes the storage handle exactly once, as the
very last operation — after the final flush; no enqueued event is lost. -/
theorem db_writer_drains_fully (q : List Writer.Ev)
    (batch : List (String × String × String)) (t0 : ℚ) (times : List ℚ) :
    Writer.opsUpserts (Writer.drainLoop q batch t0 times) =
      Writer.evSightings q ∧
    Writer.opsFlushed (Writer.drainLoop q batch t0 times) =
      batch ++ Writer.evLastSeens q ∧
    ∃ body, Writer.drainLoop q batch t0 times = body ++ [Writer.Op.closeConn] ∧
      Writer.Op.closeConn ∉ body := by
  induction q generalizing batch t0 times with
  | nil =>
      rw [drainLoop_nil]
      by_cases hb : batch = []
      · subst hb
        rw [if_pos rfl]
        exact ⟨by simp [Writer.opsUpserts, Writer.evSightings],
               by simp [Writer.opsFlushed, Writer.evLastSeens],
               ⟨[], by simp, by simp⟩⟩
      · rw [if_neg hb]
        exact ⟨by simp [Writer.opsUpserts, Writer.evSightings],
               by simp [Writer.opsFlushed, Writer.evLastSeens],
               ⟨[Writer.Op.flushBatch batch], by simp, by simp⟩⟩
  | cons e rest ih =>
      cases e with
      | lastSeen p =>
          rw [drainLoop_lastSeen]
          split
          · obtain ⟨ih1, ih2, body, ihb, ihn⟩ :=
              ih [] (times.headD t0) times.tail
            refine ⟨?_, ?_, ?_⟩
            · simpa [Writer.opsUpserts, Writer.evSightings] using ih1
            · simp only [Writer.opsFlushed, Writer.evLastSeens]
              rw [ih2]
              simp
            · exact ⟨Writer.Op.flushBatch (batch ++ [p]) :: body,
                by rw [ihb]; rfl, by simp [ihn]⟩
          · obtain ⟨jh1, jh2, jbody, jhb, jhn⟩ :=
              ih (batch ++ [p]) t0 times.tail
            refine ⟨?_, ?_, ?_⟩
            · simpa [Writer.evSightings] using jh1
            · simpa [Writer.evLastSeens, List.append_assoc] using jh2
            · exact ⟨jbody, jhb, jhn⟩
      | sighting p =>
          rw [drainLoop_sighting]
          split
          · obtain ⟨ih1, ih2, body, ihb, ihn⟩ :=
              ih [] (times.headD t0) times.tail
            refine ⟨?_, ?_, ?_⟩
            · simpa [Writer.opsUpserts, Writer.evSightings] using ih1
            · simp only [Writer.opsFlushed, Writer.evLastSeens]
              rw [ih2]
              simp
            · exact ⟨Writer.Op.upsert p :: Writer.Op.flushBatch batch :: body,
                by rw [ihb]; rfl, by simp [ihn]⟩
          · obtain ⟨jh1, jh2, jbody, jhb, jhn⟩ := ih batch t0 times.tail
            refine ⟨?_, ?_, ?_⟩
            · simpa [Writer.opsUpserts, Writer.evSightings] using jh1
            · simpa [Writer.opsFlushed, Writer.evLastSeens] using jh2
            · exact ⟨Writer.Op.upsert p :: jbody, by simp [jhb], by simp [jhn]⟩

namespace CamFetcher

/-- A decoded frame as the callers observe it: `img.shape[1]` (width) and
`img.shape[0]` (height) are all the pipeline reads from it. -/
structure Img where
  width : ℕ
  height : ℕ
deriving DecidableEq

/-- An HTTP response as `requests` hands it back: `status_code`, `text`
and the raw `content` bytes. -/
structure HttpResponse where
  status : ℕ
  text : String
  content : List ℕ
deriving DecidableEq

/-- Outcome of `session.get`: either a `requests.RequestException` with
its message, or a response. -/
inductive HttpOutcome
  | err (cause : String)
  | ok (r : HttpResponse)
deriving DecidableEq

/-- The one GET request `_http_try_snapshot` issues:
`session.get(url, auth=HTTPDigestAuth(...), timeout=..., stream=False)`. -/
structure HttpRequest where
  url : String
  authUser : String
  authPass : String
  digest : Bool
deriving DecidableEq

/-- Python `path.lstrip("/")`. -/
def lstripSlashes (s : String) : String :=
  String.mk (s.data.dropWhile (fun c => c = '/'))

/-- The request built by `camera_fetcher._http_try_snapshot`
(lines 92-94): the scheme is hard-wired to `http` and the URL is
`f"http://{ip}:80/{path}"` — port 80 literally, whatever port the caller
selected. -/
def camHttpRequest (ip username password path : String) : HttpRequest :=
  { url := "http://" ++ ip ++ ":80/" ++ lstripSlashes path
    authUser := username
    authPass := password
    digest := true }

/-- Python `txt[:200] + "..."` truncation applied to `r.text.strip()` in
the non-200 branch. -/
def bodyExcerpt (t : String) : String :=
  if 200 < t.trim.length then String.mk (t.trim.data.take 200) ++ "..."
  else t.trim

/-- `camera_fetcher._http_try_snapshot` (lines 80-113).  The network is
the oracle `http` (one call — the function performs a single GET), the
JPEG decoder `cv2.imdecode` is the oracle `decode`.  Every failure is a
returned `(none, message)`, never an exception. -/
def httpTrySnapshot (ip username password path : String)
    (http : HttpRequest → HttpOutcome) (decode : List ℕ → Option Img) :
    Option Img × String :=
  match http (camHttpRequest ip username password path) with
  | .err e => (none, ip ++ ":80: HTTP запрос не удался (" ++ e ++ ")")
  | .ok r =>
    if r.status ≠ 200 then
      let txt := bodyExcerpt r.text
      (none, ip ++ ":80: HTTP " ++ toString r.status ++
        (if txt = "" then "" else " — " ++ txt))
    else if r.content.length = 0 then
      (none, ip ++ ":80: пустой ответ (HTTP)")
    else
      match decode r.content with
      | none => (none, ip ++ ":80: не удалось декодировать изображение (HTTP)")
      | some img =>
          (some img, ip ++ ":80: OK HTTP (" ++ toString img.width ++ "x" ++
            toString img.height ++ ")")

end CamFetcher

namespace VlcFetcher

/-- The request built by `vlc_fetcher._http_try_snapshot` (lines 46-50):
`scheme = "https" if (use_https or port == 443) else "http"` and
`url = f"{scheme}://{ip}:{port}/{path}"`. -/
def vlcHttpRequest (ip : String) (port : ℕ) (useHttps : Bool)
    (path username password : String) : CamFetcher.HttpRequest :=
  { url := (if useHttps ∨ port = 443 then "https" else "http") ++ "://" ++
      ip ++ ":" ++ toString port ++ "/" ++ CamFetcher.lstripSlashes path
    authUser := username
    authPass := password
    digest := true }

end VlcFetcher

/-- Modelled from the claim's words for comparison: a URL whose scheme is
derived from the port alone — `https` exactly when the port is 443. -/
def claimSchemeUrl (ip : String) (port : ℕ) (path : String) : String :=
  (if port = 443 then "https" else "http") ++ "://" ++ ip ++ ":" ++
    toString port ++ "/" ++ CamFetcher.lstripSlashes path

/-- C3 counterexample: with the `use_https` setting on and port 80 — a
configuration `load_config` accepts — `vlc_fetcher._http_try_snapshot`
issues an `https` request, while the claim's port-derived rule demands
plain `http`; the claimed URL form is therefore not what the code sends. -/
theorem http_url_scheme_counterexample :
    (VlcFetcher.vlcHttpRequest "1.2.3.4" 80 true "/snap" "u" "p").url =
      "https://1.2.3.4:80/snap" ∧
    claimSchemeUrl "1.2.3.4" 80 "/snap" = "http://1.2.3.4:80/snap" ∧
    (VlcFetcher.vlcHttpRequest "1.2.3.4" 80 true "/snap" "u" "p").url ≠
      claimSchemeUrl "1.2.3.4" 80 "/snap" := by
  refine ⟨by decide, by decide, by decide⟩

theorem string_append_assoc (a b c : String) : a ++ b ++ c = a ++ (b ++ c) :=
  String.ext (by simp [String.data_append, List.append_assoc])

/-- C3 (amended): the HTTP snapshot client issues a single
digest-authenticated GET with the given ip, port and configured path in
the URL; the scheme is `https` when the `use_https` flag is set **or**
the port is 443 and plain `http` otherwise — so with the flag unset the
scheme is derived from the port exactly as claimed (443 → secure, else
plain).  The `camera_fetcher` variant always sends the port-80 plain-http
form. -/
theorem http_url_scheme (ip path username password : String) (port : ℕ)
    (useHttps : Bool) :
    (useHttps = false →
      (VlcFetcher.vlcHttpRequest ip port useHttps path username password).url =
        claimSchemeUrl ip port path) ∧
    ((VlcFetcher.vlcHttpRequest ip port true path username password).url =
      "https" ++ "://" ++ ip ++ ":" ++ toString port ++ "/" ++
        CamFetcher.lstripSlashes path) ∧
    (port ≠ 443 → useHttps = false →
      (VlcFetcher.vlcHttpRequest ip port useHttps path username password).url =
        "http" ++ "://" ++ ip ++ ":" ++ toString port ++ "/" ++
          CamFetcher.lstripSlashes path) ∧
    (VlcFetcher.vlcHttpRequest ip port useHttps path username password).digest =
      true ∧
    (VlcFetcher.vlcHttpRequest ip port useHttps path username password).authUser =
      username ∧
    (CamFetcher.camHttpRequest ip username password path).url =
      claimSchemeUrl ip 80 path := by
  refine ⟨?_, ?_, ?_, rfl, rfl, ?_⟩
  · rintro rfl
    by_cases h : port = 443
    · subst h
      simp [VlcFetcher.vlcHttpRequest, claimSchemeUrl]
    · simp [VlcFetcher.vlcHttpRequest, claimSchemeUrl, h]
  · simp [VlcFetcher.vlcHttpRequest]
  · rintro h rfl
    simp [VlcFetcher.vlcHttpRequest, h]
  · show ("http://" ++ ip ++ ":80/" ++ CamFetcher.lstripSlashes path : String) =
      (if (80 : ℕ) = 443 then "https" else "http") ++ "://" ++ ip ++ ":" ++
        toString (80 : ℕ) ++ "/" ++ CamFetcher.lstripSlashes path
    rw [if_neg (by norm_num)]
    rw [show ("http" ++ "://" : String) = "http://" from rfl]
    rw [string_append_assoc ("http://" ++ ip) ":" (toString (80 : ℕ))]
    rw [string_append_assoc ("http://" ++ ip) (":" ++ toString (80 : ℕ)) "/"]
    rw [show ((":" ++ toString (80 : ℕ)) ++ "/" : String) = ":80/" from rfl]

theorem http_url_scheme_witness :
    ((false = false →
      (VlcFetcher.vlcHttpRequest "10.0.0.7" 443 false "/pic" "u" "p").url =
        claimSchemeUrl "10.0.0.7" 443 "/pic") ∧
    ((VlcFetcher.vlcHttpRequest "10.0.0.7" 443 true "/pic" "u" "p").url =
      "https" ++ "://" ++ "10.0.0.7" ++ ":" ++ toString 443 ++ "/" ++
        CamFetcher.lstripSlashes "/pic") ∧
    ((443 : ℕ) ≠ 443 → false = false →
      (VlcFetcher.vlcHttpRequest "10.0.0.7" 443 false "/pic" "u" "p").url =
        "http" ++ "://" ++ "10.0.0.7" ++ ":" ++ toString 443 ++ "/" ++
          CamFetcher.lstripSlashes "/pic") ∧
    (VlcFetcher.vlcHttpRequest "10.0.0.7" 443 false "/pic" "u" "p").digest =
      true ∧
    (VlcFetcher.vlcHttpRequest "10.0.0.7" 443 false "/pic" "u" "p").authUser =
      "u" ∧
    (CamFetcher.camHttpRequest "10.0.0.7" "u" "p" "/pic").url =
      claimSchemeUrl "10.0.0.7" 80 "/pic") ∧
    (VlcFetcher.vlcHttpRequest "10.0.0.7" 443 false "/pic" "u" "p").url =
      "https://10.0.0.7:443/pic" :=
  ⟨http_url_scheme "10.0.0.7" "/pic" "u" "p" 443 false, by decide⟩

/-- C4: the HTTP snapshot client never raises across its boundary — every
outcome is a returned pair.  A transport failure returns `(none, message)`
with the underlying cause embedded; a non-200 status returns
`(none, message)` containing the status code — in particular a 404 yields
a message containing "404" — and at most 200 characters of the (trimmed)
response body, an ellipsis marking truncation; an empty body and an
undecodable body each return `(none, message)`; a decodable 200 body
returns the decoded image. -/
theorem http_snapshot_error_handling (ip username password path : String)
    (http : CamFetcher.HttpRequest → CamFetcher.HttpOutcome)
    (decode : List ℕ → Option CamFetcher.Img) :
    (∀ e, http (CamFetcher.camHttpRequest ip username password path) =
        .err e →
      (CamFetcher.httpTrySnapshot ip username password path http decode).1 =
        none ∧
      ∃ pre post,
        (CamFetcher.httpTrySnapshot ip username password path http decode).2 =
          pre ++ e ++ post) ∧
    (∀ r, http (CamFetcher.camHttpRequest ip username password path) =
        .ok r → r.status ≠ 200 →
      (CamFetcher.httpTrySnapshot ip username password path http decode).1 =
        none ∧
      (∃ pre post,
        (CamFetcher.httpTrySnapshot ip username password path http decode).2 =
          pre ++ toString r.status ++ post) ∧
      (r.status = 404 → ∃ pre post,
        (CamFetcher.httpTrySnapshot ip username password path http decode).2 =
          pre ++ "404" ++ post) ∧
      (r.text.trim.length ≤ 200 →
        CamFetcher.bodyExcerpt r.text = r.text.trim) ∧
      (200 < r.text.trim.length →
        CamFetcher.bodyExcerpt r.text =
          String.mk (r.text.trim.data.take 200) ++ "..." ∧
        (String.mk (r.text.trim.data.take 200)).length = 200)) ∧
    (∀ r, http (CamFetcher.camHttpRequest ip username password path) =
        .ok r → r.status = 200 → r.content = [] →
      CamFetcher.httpTrySnapshot ip username password path http decode =
        (none, ip ++ ":80: пустой ответ (HTTP)")) ∧
    (∀ r, http (CamFetcher.camHttpRequest ip username password path) =
        .ok r → r.status = 200 → r.content ≠ [] →
      decode r.content = none →
      CamFetcher.httpTrySnapshot ip username password path http decode =
        (none, ip ++ ":80: не удалось декодировать изображение (HTTP)")) ∧
    (∀ r img, http (CamFetcher.camHttpRequest ip username password path) =
        .ok r → r.status = 200 → r.content ≠ [] →
      decode r.content = some img →
      CamFetcher.httpTrySnapshot ip username password path http decode =
        (some img, ip ++ ":80: OK HTTP (" ++ toString img.width ++ "x" ++
          toString img.height ++ ")")) := by
  refine ⟨?_, ?_, ?_, ?_, ?_⟩
  · intro e he
    unfold CamFetcher.httpTrySnapshot
    rw [he]
    dsimp only
    exact ⟨rfl, ip ++ ":80: HTTP запрос не удался (", ")", rfl⟩
  · intro r hr hst
    unfold CamFetcher.httpTrySnapshot
    rw [hr]
    dsimp only
    rw [if_pos hst]
    refine ⟨rfl,
      ⟨ip ++ ":80: HTTP ",
        (if CamFetcher.bodyExcerpt r.text = "" then ""
         else " — " ++ CamFetcher.bodyExcerpt r.text), rfl⟩,
      ?_, ?_, ?_⟩
    · intro h404
      rw [h404]
      exact ⟨ip ++ ":80: HTTP ",
        (if CamFetcher.bodyExcerpt r.text = "" then ""
         else " — " ++ CamFetcher.bodyExcerpt r.text), rfl⟩
    · intro hshort
      unfold CamFetcher.bodyExcerpt
      rw [if_neg (by omega)]
    · intro hlong
      unfold CamFetcher.bodyExcerpt
      rw [if_pos hlong]
      refine ⟨rfl, ?_⟩
      show (r.text.trim.data.take 200).length = 200
      rw [List.length_take]
      have : r.text.trim.length = r.text.trim.data.length := rfl
      omega
  · intro r hr h200 hc
    unfold CamFetcher.httpTrySnapshot
    rw [hr]
    dsimp only
    rw [if_neg (by omega), if_pos (by simp [hc])]
  · intro r hr h200 hc hd
    unfold CamFetcher.httpTrySnapshot
    rw [hr]
    dsimp only
    rw [if_neg (by omega), if_neg (by simp [hc]), hd]
  · intro r img hr h200 hc hd
    unfold CamFetcher.httpTrySnapshot
    rw [hr]
    dsimp only
    rw [if_neg (by omega), if_neg (by simp [hc]), hd]

theorem http_snapshot_error_handling_witness :
    (CamFetcher.httpTrySnapshot "1.2.3.4" "u" "p" "/snap"
        (fun _ => .ok ⟨404, "Not Found", []⟩) (fun _ => none)).1 = none ∧
    ∃ pre post,
      (CamFetcher.httpTrySnapshot "1.2.3.4" "u" "p" "/snap"
        (fun _ => .ok ⟨404, "Not Found", []⟩) (fun _ => none)).2 =
        pre ++ "404" ++ post := by
  have h := (http_snapshot_error_handling "1.2.3.4" "u" "p" "/snap"
    (fun _ => .ok ⟨404, "Not Found", []⟩) (fun _ => none)).2.1
    ⟨404, "Not Found", []⟩ rfl (by decide)
  exact ⟨h.1, h.2.2.1 rfl⟩

namespace CamFetcher

/-- libVLC player states as `player.get_state()` reports them. -/
inductive VlcSt
  | nothingSpecial
  | opening
  | buffering
  | playing
  | paused
  | stopped
  | ended
  | error
deriving DecidableEq

/-- Python `f"state={player.get_state()}"` rendering. -/
def stName : VlcSt → String
  | .nothingSpecial => "State.NothingSpecial"
  | .opening => "State.Opening"
  | .buffering => "State.Buffering"
  | .playing => "State.Playing"
  | .paused => "State.Paused"
  | .stopped => "State.Stopped"
  | .ended => "State.Ended"
  | .error => "State.Error"

/-- One iteration's observation inside the wait-for-frame poll loop:
`player.get_state()` plus `player.video_get_size(0)`. -/
structure PollObs where
  st : VlcSt
  w : ℕ
  h : ℕ
deriving DecidableEq

/-- One `player.video_take_snapshot` attempt's observable outcome:
return code, `outfile.exists()` and `outfile.stat().st_size`. -/
structure SnapObs where
  rc : Int
  fileOk : Bool
  fileSize : ℕ
deriving DecidableEq

/-- The behaviour of one embedded-player acquisition, supplied as an
oracle: `player.play()`'s return (or exception), the poll-loop
observations (list exhaustion = the `connect_timeout_s` deadline
passing), the snapshot attempts, and the states reported in the two
failure messages that query `player.get_state()` again. -/
structure VlcBackend where
  playRc : Except String Int
  polls : List (Except String PollObs)
  snaps : ℕ → Except String SnapObs
  midState : VlcSt
  endState : VlcSt

/-- Resource/effect actions of `_vlc_take_snapshot_to_file`, in program
order. -/
inductive RAction
  | newInstance
  | newPlayer
  | newMedia
  | play
  | pollState
  | takeSnap
  | stopPlayer
  | delPlayer
  | delMedia
  | delInstance
deriving DecidableEq

/-- Exit of the wait-for-frame loop. -/
inductive PollExit
  | gotSize (w h : ℕ)
  | earlyFail (msg : String)
  | deadline
deriving DecidableEq

/-- The `while time.time() - start < connect_timeout_s` loop of
`camera_fetcher._vlc_take_snapshot_to_file` (lines 224-242): `Error` and
`Ended` return failure messages, `Playing` with a non-zero frame size
breaks out, every other state keeps polling; running out of time leaves
the loop with no size. -/
def pollLoop : List (Except String PollObs) →
    Except String PollExit × List RAction
  | [] => (.ok .deadline, [])
  | .error e :: _ => (.error e, [.pollState])
  | .ok obs :: rest =>
    match obs.st with
    | .error => (.ok (.earlyFail "VLC: ошибка потока"), [.pollState])
    | .ended =>
        (.ok (.earlyFail "VLC: поток закончился до первого кадра"),
         [.pollState])
    | .playing =>
        if obs.w ≠ 0 ∧ obs.h ≠ 0 then
          (.ok (.gotSize obs.w obs.h), [.pollState])
        else ((pollLoop rest).1, .pollState :: (pollLoop rest).2)
    | _ => ((pollLoop rest).1, .pollState :: (pollLoop rest).2)

/-- The `for attempt in range(6)` snapshot loop (lines 248-254): an
attempt succeeds when the return code is 0 and the output file exists and
is non-empty; six failures report the player's state. -/
def snapLoop (snaps : ℕ → Except String SnapObs) (endState : VlcSt) :
    ℕ → ℕ → Except String (Bool × String) × List RAction
  | _, 0 =>
      (.ok (false, "VLC: кадр не получен, state=" ++ stName endState), [])
  | i, fuel + 1 =>
    match snaps i with
    | .error e => (.error e, [.takeSnap])
    | .ok s =>
        if s.rc = 0 ∧ s.fileOk = true ∧ 0 < s.fileSize then
          (.ok (true, "VLC snapshot OK"), [.takeSnap])
        else
          ((snapLoop snaps endState (i + 1) fuel).1,
           .takeSnap :: (snapLoop snaps endState (i + 1) fuel).2)

/-- The `try:` body of `_vlc_take_snapshot_to_file` (lines 217-254):
start playback, wait for a sized frame, then attempt snapshots.  An
exception anywhere propagates as `.error`. -/
def vlcBodyRun (b : VlcBackend) : Except String (Bool × String) × List RAction :=
  match b.playRc with
  | .error e => (.error e, [.play])
  | .ok rc =>
    if rc = -1 then
      (.ok (false, "VLC: не удалось запустить воспроизведение"), [.play])
    else
      match (pollLoop b.polls).1 with
      | .error e => (.error e, .play :: (pollLoop b.polls).2)
      | .ok (.earlyFail m) => (.ok (false, m), .play :: (pollLoop b.polls).2)
      | .ok .deadline =>
          (.ok (false, "VLC: кадр не готов (нет размера), state=" ++
            stName b.midState), .play :: (pollLoop b.polls).2)
      | .ok (.gotSize _ _) =>
          ((snapLoop b.snaps b.endState 0 6).1,
           .play :: ((pollLoop b.polls).2 ++ (snapLoop b.snaps b.endState 0 6).2))

/-- Resource acquisitions performed before the `try:`:
`vlc.Instance(...)`, `instance.media_player_new()`,
`instance.media_new(rtsp_url)`. -/
def setupActions : List RAction := [.newInstance, .newPlayer, .newMedia]

/-- The `finally:` block (lines 256-263): `player.stop()` (its own
exception swallowed), `del player`, `del media`, `del instance`. -/
def teardownActions : List RAction := [.stopPlayer, .delPlayer, .delMedia, .delInstance]

/-- `camera_fetcher._vlc_take_snapshot_to_file` (lines 177-263) as a
whole: fresh per-call setup, the `try:` body, and — by `try/finally`
semantics — the teardown appended on success, failure and exception
alike, after which the body's result (or exception) propagates. -/
def vlcTakeSnapshotRun (b : VlcBackend) :
    Except String (Bool × String) × List RAction :=
  ((vlcBodyRun b).1, setupActions ++ (vlcBodyRun b).2 ++ teardownActions)

/-- The value (or propagated exception) the caller of
`_vlc_take_snapshot_to_file` observes. -/
def vlcTakeSnapshotToFile (b : VlcBackend) : Except String (Bool × String) :=
  (vlcTakeSnapshotRun b).1

theorem pollLoop_actions (polls : List (Except String PollObs)) :
    ∀ a ∈ (pollLoop polls).2, a = RAction.pollState := by
  induction polls with
  | nil => intro a ha; simp [pollLoop] at ha
  | cons o rest ih =>
      intro a ha
      match o with
      | .error e => simp [pollLoop] at ha; exact ha
      | .ok obs =>
          cases hst : obs.st
          case playing =>
            simp only [pollLoop, hst] at ha
            split at ha
            · simp at ha; exact ha
            · simp only [List.mem_cons] at ha
              rcases ha with ha | ha
              · exact ha
              · exact ih a ha
          all_goals
            simp only [pollLoop, hst, List.mem_cons, List.mem_singleton,
              List.not_mem_nil, or_false] at ha
            first
            | exact ha
            | (rcases ha with ha | ha
               · exact ha
               · exact ih a ha)

theorem snapLoop_actions (snaps : ℕ → Except String SnapObs)
    (endState : VlcSt) :
    ∀ fuel i, ∀ a ∈ (snapLoop snaps endState i fuel).2, a = RAction.takeSnap := by
  intro fuel
  induction fuel with
  | zero => intro i a ha; simp [snapLoop] at ha
  | succ n ih =>
      intro i a ha
      match hs : snaps i with
      | .error e => simp [snapLoop, hs] at ha; exact ha
      | .ok s =>
          simp only [snapLoop, hs] at ha
          split at ha
          · simp at ha; exact ha
          · simp at ha
            rcases ha with ha | ha
            · exact ha
            · exact ih (i + 1) a ha

theorem vlcBodyRun_actions (b : VlcBackend) :
    ∀ a ∈ (vlcBodyRun b).2,
      a = RAction.play ∨ a = RAction.pollState ∨ a = RAction.takeSnap := by
  intro a ha
  unfold vlcBodyRun at ha
  match hp : b.playRc with
  | .error e => rw [hp] at ha; simp at ha; left; exact ha
  | .ok rc =>
    rw [hp] at ha
    dsimp only at ha
    split at ha
    · simp at ha; left; exact ha
    · split at ha <;> simp at ha <;>
        (rcases ha with ha | ha
         · left; exact ha
         ·
          first
          | (right; left; exact pollLoop_actions b.polls a ha)
          | (rcases ha with ha | ha
             · right; left; exact pollLoop_actions b.polls a ha
             · right; right; exact snapLoop_actions b.snaps b.endState 6 0 a ha))

end CamFetcher

/-- C7: every call of the embedded-player backend performs its own
acquisition-scoped setup — a fresh `vlc.Instance`, player and media — and
its action trace always ends with the full teardown (`player.stop()`,
`del player`, `del media`, `del instance`), with no setup or teardown
action occurring in between: the `finally:` runs on success, on every
failure branch and on exception alike, and no player is shared across
calls. -/
theorem vlc_snapshot_teardown_every_path (b : CamFetcher.VlcBackend) :
    ∃ mid,
      (CamFetcher.vlcTakeSnapshotRun b).2 =
        [CamFetcher.RAction.newInstance, CamFetcher.RAction.newPlayer,
         CamFetcher.RAction.newMedia] ++ mid ++
        [CamFetcher.RAction.stopPlayer, CamFetcher.RAction.delPlayer,
         CamFetcher.RAction.delMedia, CamFetcher.RAction.delInstance] ∧
      (∀ a ∈ mid, a = CamFetcher.RAction.play ∨
        a = CamFetcher.RAction.pollState ∨ a = CamFetcher.RAction.takeSnap) ∧
      (CamFetcher.vlcTakeSnapshotRun b).1 = CamFetcher.vlcTakeSnapshotToFile b :=
  ⟨(CamFetcher.vlcBodyRun b).2, rfl, CamFetcher.vlcBodyRun_actions b, rfl⟩

namespace CamFetcher

/-- The per-attempt failure diagnostic `_rtsp_vlc_snapshot` stores in
`last_err`: `"exception: {e}"` on an exception, the returned message on a
`(False, msg)` outcome, and the fixed decode-failure text when the
snapshot file exists but `cv2.imdecode` returns `None`. -/
def attemptFailMsg (decode : List ℕ → Option Img) (b : VlcBackend)
    (fb : List ℕ) : String :=
  match vlcTakeSnapshotToFile b with
  | .error e => "exception: " ++ e
  | .ok (false, m) => m
  | .ok (true, _) =>
    match decode fb with
    | none => "VLC snapshot есть, но не удалось декодировать JPEG"
    | some _ => ""

/-- Whether one attempt of `_rtsp_vlc_snapshot` fails (exception, failed
snapshot, or undecodable snapshot file). -/
def attemptFailsB (decode : List ℕ → Option Img) (b : VlcBackend)
    (fb : List ℕ) : Bool :=
  match vlcTakeSnapshotToFile b with
  | .error _ => true
  | .ok (false, _) => true
  | .ok (true, _) => (decode fb).isNone

/-- The `for i in range(1, max(1, attempts) + 1)` retry loop of
`camera_fetcher._rtsp_vlc_snapshot` (lines 136-166): each iteration
either returns the decoded snapshot or overwrites `last_err` with that
attempt's diagnostic; exhaustion returns
`(None, f"{ip}:{port}: {last_err}")` — carrying only the last stored
diagnostic.  `i` is the attempt index, `n` the attempts left. -/
def rtspLoop (ip : String) (port : ℕ) (backends : ℕ → VlcBackend)
    (fileBytes : ℕ → List ℕ) (decode : List ℕ → Option Img) :
    ℕ → ℕ → String → Option Img × String
  | _, 0, lastErr => (none, ip ++ ":" ++ toString port ++ ": " ++ lastErr)
  | i, n + 1, _lastErr =>
    match vlcTakeSnapshotToFile (backends i) with
    | .error e =>
        rtspLoop ip port backends fileBytes decode (i + 1) n
          ("exception: " ++ e)
    | .ok (false, msg) =>
        rtspLoop ip port backends fileBytes decode (i + 1) n msg
    | .ok (true, msg) =>
      match decode (fileBytes i) with
      | none =>
          rtspLoop ip port backends fileBytes decode (i + 1) n
            "VLC snapshot есть, но не удалось декодировать JPEG"
      | some img =>
          (some img, ip ++ ":" ++ toString port ++ ": " ++ msg ++ " (" ++
            toString img.width ++ "x" ++ toString img.height ++ ")")

/-- `camera_fetcher._rtsp_vlc_snapshot` (lines 116-166): a temporary
snapshot directory (`tmp`, fresh per call, never observable in the
result), then the retry loop with `max(1, attempts)` iterations starting
from `last_err = "не удалось получить кадр через VLC"`. -/
def rtspVlcSnapshot (ip : String) (port : ℕ) (_tmp : String)
    (backends : ℕ → VlcBackend) (fileBytes : ℕ → List ℕ)
    (decode : List ℕ → Option Img) (attempts : ℕ) : Option Img × String :=
  rtspLoop ip port backends fileBytes decode 0 (max 1 attempts)
    "не удалось получить кадр через VLC"

theorem rtspLoop_all_fail (ip : String) (port : ℕ)
    (backends : ℕ → VlcBackend) (fileBytes : ℕ → List ℕ)
    (decode : List ℕ → Option Img) :
    ∀ n i lastErr, 0 < n →
    (∀ k, k < n → attemptFailsB decode (backends (i + k)) (fileBytes (i + k)) =
      true) →
    rtspLoop ip port backends fileBytes decode i n lastErr =
      (none, ip ++ ":" ++ toString port ++ ": " ++
        attemptFailMsg decode (backends (i + n - 1)) (fileBytes (i + n - 1))) := by
  intro n
  induction n with
  | zero => intro i lastErr h; omega
  | succ m ih =>
      intro i lastErr _ hfail
      have h0 := hfail 0 (by omega)
      simp only [Nat.add_zero] at h0
      rcases m with _ | m'
      · -- last attempt
        simp only [Nat.add_sub_cancel]
        unfold rtspLoop
        match hv : vlcTakeSnapshotToFile (backends i) with
        | .error e =>
            unfold rtspLoop
            unfold attemptFailMsg
            rw [hv]
        | .ok (false, msg) =>
            unfold rtspLoop
            unfold attemptFailMsg
            rw [hv]
        | .ok (true, msg) =>
            unfold attemptFailsB at h0
            rw [hv] at h0
            have hd : decode (fileBytes i) = none := by
              rcases hdec : decode (fileBytes i) with _ | v
              · rfl
              · rw [hdec] at h0; simp at h0
            rw [hd]
            unfold rtspLoop
            unfold attemptFailMsg
            rw [hv, hd]
      · -- more attempts remain: this one fails, recurse
        have hrest : ∀ k, k < m' + 1 →
            attemptFailsB decode (backends (i + 1 + k))
              (fileBytes (i + 1 + k)) = true := by
          intro k hk
          have := hfail (k + 1) (by omega)
          have harith : i + (k + 1) = i + 1 + k := by omega
          rwa [harith] at this
        have harith2 : i + 1 + (m' + 1) - 1 = i + (m' + 1 + 1) - 1 := by omega
        unfold rtspLoop
        match hv : vlcTakeSnapshotToFile (backends i) with
        | .error e =>
            have hrec' := ih (i + 1) ("exception: " ++ e) (by omega) hrest
            rw [harith2] at hrec'
            exact hrec'
        | .ok (false, msg) =>
            have hrec' := ih (i + 1) msg (by omega) hrest
            rw [harith2] at hrec'
            exact hrec'
        | .ok (true, msg) =>
            unfold attemptFailsB at h0
            rw [hv] at h0
            have hd : decode (fileBytes i) = none := by
              rcases hdec : decode (fileBytes i) with _ | v
              · rfl
              · rw [hdec] at h0; simp at h0
            rw [hd]
            have hrec' := ih (i + 1)
              "VLC snapshot есть, но не удалось декодировать JPEG"
              (by omega) hrest
            rw [harith2] at hrec'
            exact hrec'

end CamFetcher

namespace CamFetcher

/-- Decidable substring test used to state what a diagnostic message does
(or does not) contain. -/
def hasSubseg (pat : List Char) : List Char → Bool
  | [] => pat.isEmpty
  | c :: rest => pat.isPrefixOf (c :: rest) || hasSubseg pat rest

/-- `strContains s pat` holds when `pat` occurs contiguously in `s`. -/
def strContains (s pat : String) : Bool := hasSubseg pat.data s.data

/-- The collaborators `camera_fetcher.fetch_camera_image` can reach:
the HTTP session, the JPEG decoder, and the per-attempt VLC behaviour. -/
structure FetchOracles where
  http : HttpRequest → HttpOutcome
  decode : List ℕ → Option Img
  backends : ℕ → VlcBackend
  fileBytes : ℕ → List ℕ

/-- `camera_fetcher.fetch_camera_image` (lines 30-74): port 80 → HTTP
ISAPI snapshot, port 554 → RTSP through VLC, any other port → an
immediate `(None, "не поддерживаемый порт …")` with no oracle consulted. -/
def fetch_camera_image (ip username password : String) (port : ℕ)
    (httpSnapshotPath _rtspPath : String) (rtspAttempts : ℕ) (tmp : String)
    (o : FetchOracles) : Option Img × String :=
  if port = 80 then
    httpTrySnapshot ip username password httpSnapshotPath o.http o.decode
  else if port = 554 then
    rtspVlcSnapshot ip 554 tmp o.backends o.fileBytes o.decode rtspAttempts
  else
    (none, ip ++ ":" ++ toString port ++
      ": не поддерживаемый порт (разрешены только 80 и 554)")

/-- The single piece of per-call mutable state of an acquisition: the
fresh temporary snapshot directory, modelled as a counter-derived name. -/
structure FetchWorld where
  tmpCounter : ℕ
deriving DecidableEq

/-- One acquisition call with its world threading: the call uses the
fresh temporary-directory name and leaves a bumped counter behind. -/
def fetchCameraImageW (ip username password : String) (port : ℕ)
    (hpath rpath : String) (attempts : ℕ) (o : FetchOracles)
    (w : FetchWorld) : (Option Img × String) × FetchWorld :=
  (fetch_camera_image ip username password port hpath rpath attempts
    ("vlc_snap_" ++ toString w.tmpCounter) o,
   ⟨w.tmpCounter + 1⟩)

end CamFetcher

namespace VlcFetcher

/-- `vlc_fetcher._http_try_snapshot` (lines 37-64): single GET, non-200
returns the status plus an up-to-200-character body excerpt, an
undecodable body a decode failure, a decodable one the image. -/
def vlcHttpTrySnapshot (ip : String) (port : ℕ) (useHttps : Bool)
    (path username password : String)
    (http : CamFetcher.HttpRequest → CamFetcher.HttpOutcome)
    (decode : List ℕ → Option CamFetcher.Img) :
    Option CamFetcher.Img × String :=
  match http (vlcHttpRequest ip port useHttps path username password) with
  | .err e =>
      (none, ip ++ ":" ++ toString port ++ ": HTTP запрос не удался (" ++
        e ++ ")")
  | .ok r =>
    if r.status ≠ 200 then
      (none, ip ++ ":" ++ toString port ++ ": HTTP " ++ toString r.status ++
        (if CamFetcher.bodyExcerpt r.text = "" then ""
         else " — " ++ CamFetcher.bodyExcerpt r.text))
    else
      match decode r.content with
      | none =>
          (none, ip ++ ":" ++ toString port ++
            ": не удалось декодировать изображение (HTTP)")
      | some img =>
          (some img, ip ++ ":" ++ toString port ++ ": OK HTTP (" ++
            toString img.width ++ "x" ++ toString img.height ++ ")")

/-- The `attempts = 3` retry loop of `vlc_fetcher.fetch_camera_image`
(lines 169-197), with `last_err` starting empty and the final message
falling back to a generic text when it stayed empty. -/
def vlcRtspLoop (ip : String)
    (vlcAttempt : ℕ → Except String (Bool × String))
    (fileBytes : ℕ → List ℕ) (decode : List ℕ → Option CamFetcher.Img) :
    ℕ → ℕ → String → Option CamFetcher.Img × String
  | _, 0, lastErr =>
      (none, ip ++ ": " ++
        (if lastErr = "" then "не удалось получить кадр через VLC"
         else lastErr))
  | i, n + 1, _lastErr =>
    match vlcAttempt i with
    | .error e =>
        vlcRtspLoop ip vlcAttempt fileBytes decode (i + 1) n
          ("exception: " ++ e)
    | .ok (false, msg) =>
        vlcRtspLoop ip vlcAttempt fileBytes decode (i + 1) n msg
    | .ok (true, msg) =>
      match decode (fileBytes i) with
      | none =>
          vlcRtspLoop ip vlcAttempt fileBytes decode (i + 1) n
            "VLC snapshot есть, но не удалось декодировать"
      | some img =>
          (some img, ip ++ ": " ++ msg ++ " (" ++ toString img.width ++
            "x" ++ toString img.height ++ ")")

/-- `vlc_fetcher.fetch_camera_image` (lines 125-197): ports 80 and 443 →
HTTP snapshot (`use_https or port == 443`), every other port — including
a missing one, defaulted to 554 — → the RTSP/VLC loop; no port is ever
rejected. -/
def fetch_camera_image (ip username password channelPath : String)
    (useHttps : Bool) (port : Option ℕ)
    (http : CamFetcher.HttpRequest → CamFetcher.HttpOutcome)
    (decode : List ℕ → Option CamFetcher.Img)
    (vlcAttempt : ℕ → Except String (Bool × String))
    (fileBytes : ℕ → List ℕ) : Option CamFetcher.Img × String :=
  if port = some 80 ∨ port = some 443 then
    vlcHttpTrySnapshot ip (if port = some 443 then 443 else 80)
      (useHttps || (port == some 443)) channelPath username password
      http decode
  else
    vlcRtspLoop ip vlcAttempt fileBytes decode 0 3 ""

end VlcFetcher

/-- C2 counterexample: two failing RTSP attempts with distinct
diagnostics — attempt 1 fails to start playback, attempt 2 hits a stream
error.  The returned message is exactly the second attempt's diagnostic;
the first attempt's diagnostic does not occur in it, so the message is
not a concatenation of every attempt's diagnostic. -/
theorem rtsp_aggregation_counterexample :
    CamFetcher.rtspVlcSnapshot "1.2.3.4" 554 "tmp"
      (fun i => if i = 0 then
        ⟨.ok (-1), [], fun _ => .error "x", .error, .error⟩
      else
        ⟨.ok 0, [.ok ⟨.error, 0, 0⟩], fun _ => .error "x", .error, .error⟩)
      (fun _ => []) (fun _ => none) 2 =
      (none, "1.2.3.4:554: VLC: ошибка потока") ∧
    CamFetcher.strContains "1.2.3.4:554: VLC: ошибка потока"
      "не удалось запустить воспроизведение" = false :=
  ⟨by decide, by decide⟩

/-- C2 (amended): when every RTSP attempt fails, `_rtsp_vlc_snapshot`
returns `(None, f"{ip}:{port}: {last_err}")` where `last_err` is the
diagnostic of the **last** attempt only — each attempt overwrites the
previous diagnostic instead of concatenating. -/
theorem rtsp_failure_reports_last_error (ip : String) (port : ℕ)
    (tmp : String) (backends : ℕ → CamFetcher.VlcBackend)
    (fileBytes : ℕ → List ℕ) (decode : List ℕ → Option CamFetcher.Img)
    (attempts : ℕ)
    (h : ∀ i < max 1 attempts,
      CamFetcher.attemptFailsB decode (backends i) (fileBytes i) = true) :
    CamFetcher.rtspVlcSnapshot ip port tmp backends fileBytes decode
      attempts =
      (none, ip ++ ":" ++ toString port ++ ": " ++
        CamFetcher.attemptFailMsg decode (backends (max 1 attempts - 1))
          (fileBytes (max 1 attempts - 1))) := by
  unfold CamFetcher.rtspVlcSnapshot
  have hr := CamFetcher.rtspLoop_all_fail ip port backends fileBytes decode
    (max 1 attempts) 0 "не удалось получить кадр через VLC"
    (by omega) (by intro k hk; simpa using h k hk)
  simpa using hr

theorem rtsp_failure_reports_last_error_witness :
    (∀ i < max 1 2,
      CamFetcher.attemptFailsB (fun _ => none)
        ((fun i => if i = 0 then
            (⟨.ok (-1), [], fun _ => .error "x", .error, .error⟩ :
              CamFetcher.VlcBackend)
          else
            ⟨.ok 0, [.ok ⟨.error, 0, 0⟩], fun _ => .error "x", .error,
              .error⟩) i)
        ((fun _ => []) i) = true) ∧
    CamFetcher.rtspVlcSnapshot "1.2.3.4" 554 "tmp"
      (fun i => if i = 0 then
        ⟨.ok (-1), [], fun _ => .error "x", .error, .error⟩
      else
        ⟨.ok 0, [.ok ⟨.error, 0, 0⟩], fun _ => .error "x", .error, .error⟩)
      (fun _ => []) (fun _ => none) 2 =
      (none, "1.2.3.4" ++ ":" ++ toString 554 ++ ": " ++
        CamFetcher.attemptFailMsg (fun _ => none)
          ((fun i => if i = 0 then
              (⟨.ok (-1), [], fun _ => .error "x", .error, .error⟩ :
                CamFetcher.VlcBackend)
            else
              ⟨.ok 0, [.ok ⟨.error, 0, 0⟩], fun _ => .error "x", .error,
                .error⟩) (max 1 2 - 1))
          ((fun _ => []) (max 1 2 - 1))) :=
  ⟨by decide,
   rtsp_failure_reports_last_error "1.2.3.4" 554 "tmp" _ _ _ 2 (by decide)⟩

/-- C1 counterexample: `camera_fetcher.fetch_camera_image` at port 443 —
a port the claim assigns to the HTTP snapshot strategy — returns the
unsupported-port result even with an HTTP backend that would deliver a
frame; and `vlc_fetcher.fetch_camera_image` at port 9999 — outside the
accepted set, so the claim demands `UnsupportedPort` with no I/O —
consults the RTSP backend and returns its frame. -/
theorem protocol_selector_counterexample :
    CamFetcher.fetch_camera_image "1.2.3.4" "u" "p" 443 "/snap" "ch" 1 "tmp"
      ⟨fun _ => .ok ⟨200, "", [1]⟩, fun _ => some ⟨640, 480⟩,
       fun _ => ⟨.ok (-1), [], fun _ => .error "", .error, .error⟩,
       fun _ => []⟩ =
      (none,
       "1.2.3.4:443: не поддерживаемый порт (разрешены только 80 и 554)") ∧
    VlcFetcher.fetch_camera_image "1.2.3.4" "u" "p" "ch" false (some 9999)
      (fun _ => .ok ⟨200, "", []⟩) (fun _ => some ⟨640, 480⟩)
      (fun _ => .ok (true, "VLC snapshot OK")) (fun _ => [1]) =
      (some ⟨640, 480⟩, "1.2.3.4: VLC snapshot OK (640x480)") :=
  ⟨by decide, by decide⟩

/-- C1 (amended): in `camera_fetcher.fetch_camera_image` only port 80
selects the HTTP snapshot strategy and only port 554 the RTSP strategy;
every other port — 443 included — immediately returns the
unsupported-port result `(None, message)` without consulting any network
or decoder oracle.  In `vlc_fetcher.fetch_camera_image` ports 80 and 443
select the HTTP snapshot strategy and every other port the RTSP
strategy; no port yields an unsupported-port result there. -/
theorem protocol_selector_dispatch (ip username password hpath rpath tmp
      channelPath : String)
    (attempts : ℕ) (o : CamFetcher.FetchOracles) (port : ℕ)
    (useHttps : Bool) (vport : Option ℕ)
    (http : CamFetcher.HttpRequest → CamFetcher.HttpOutcome)
    (decode : List ℕ → Option CamFetcher.Img)
    (vlcAttempt : ℕ → Except String (Bool × String))
    (fileBytes : ℕ → List ℕ) :
    (port = 80 →
      CamFetcher.fetch_camera_image ip username password port hpath rpath
        attempts tmp o =
      CamFetcher.httpTrySnapshot ip username password hpath o.http
        o.decode) ∧
    (port = 554 →
      CamFetcher.fetch_camera_image ip username password port hpath rpath
        attempts tmp o =
      CamFetcher.rtspVlcSnapshot ip 554 tmp o.backends o.fileBytes o.decode
        attempts) ∧
    (port ≠ 80 → port ≠ 554 →
      (CamFetcher.fetch_camera_image ip username password port hpath rpath
        attempts tmp o).1 = none ∧
      (CamFetcher.fetch_camera_image ip username password port hpath rpath
        attempts tmp o).2 =
        ip ++ ":" ++ toString port ++
          ": не поддерживаемый порт (разрешены только 80 и 554)" ∧
      (∀ o' : CamFetcher.FetchOracles,
        CamFetcher.fetch_camera_image ip username password port hpath rpath
          attempts tmp o' =
        CamFetcher.fetch_camera_image ip username password port hpath rpath
          attempts tmp o)) ∧
    (vport = some 80 ∨ vport = some 443 →
      VlcFetcher.fetch_camera_image ip username password channelPath
        useHttps vport http decode vlcAttempt fileBytes =
      VlcFetcher.vlcHttpTrySnapshot ip (if vport = some 443 then 443 else 80)
        (useHttps || (vport == some 443)) channelPath username password
        http decode) ∧
    (vport ≠ some 80 → vport ≠ some 443 →
      VlcFetcher.fetch_camera_image ip username password channelPath
        useHttps vport http decode vlcAttempt fileBytes =
      VlcFetcher.vlcRtspLoop ip vlcAttempt fileBytes decode 0 3 "") := by
  refine ⟨?_, ?_, ?_, ?_, ?_⟩
  · rintro rfl
    rfl
  · rintro rfl
    rfl
  · intro h80 h554
    unfold CamFetcher.fetch_camera_image
    rw [if_neg h80, if_neg h554]
    exact ⟨rfl, rfl, fun o' => by rw [if_neg h80, if_neg h554]⟩
  · intro h
    unfold VlcFetcher.fetch_camera_image
    rw [if_pos h]
  · intro h80 h443
    unfold VlcFetcher.fetch_camera_image
    rw [if_neg (by simp [h80, h443])]

theorem protocol_selector_dispatch_witness :
    ((443 : ℕ) ≠ 80 ∧ (443 : ℕ) ≠ 554) ∧
    (CamFetcher.fetch_camera_image "1.2.3.4" "u" "p" 443 "/snap" "ch" 1
      "tmp"
      ⟨fun _ => .ok ⟨200, "", [1]⟩, fun _ => some ⟨640, 480⟩,
       fun _ => ⟨.ok (-1), [], fun _ => .error "", .error, .error⟩,
       fun _ => []⟩).1 = none := by
  have h := (protocol_selector_dispatch "1.2.3.4" "u" "p" "/snap" "ch"
    "tmp" "ch" 1
    ⟨fun _ => .ok ⟨200, "", [1]⟩, fun _ => some ⟨640, 480⟩,
     fun _ => ⟨.ok (-1), [], fun _ => .error "", .error, .error⟩,
     fun _ => []⟩ 443 false (some 9999)
    (fun _ => .ok ⟨200, "", []⟩) (fun _ => some ⟨640, 480⟩)
    (fun _ => .ok (true, "VLC snapshot OK")) (fun _ => [1])).2.2.1
    (by decide) (by decide)
  exact ⟨⟨by decide, by decide⟩, h.1⟩

/-- C8: the acquisition session is deterministic in its inputs and the
backend's responses: with a fixed oracle, running the session twice in
sequence — the second call starting from the world state the first one
left behind (in particular a different fresh temporary directory) —
yields identical `(image, message)` outcomes. -/
theorem acquisition_idempotent (ip username password : String) (port : ℕ)
    (hpath rpath : String) (attempts : ℕ) (o : CamFetcher.FetchOracles)
    (w : CamFetcher.FetchWorld) :
    (CamFetcher.fetchCameraImageW ip username password port hpath rpath
      attempts o w).1 =
    (CamFetcher.fetchCameraImageW ip username password port hpath rpath
      attempts o
      (CamFetcher.fetchCameraImageW ip username password port hpath rpath
        attempts o w).2).1 := rfl
